import Mathlib

/-!
Verification of the pump-detector pipeline (pump_detector.py, market_scanner.py,
signal_tracker.py) against its specification.

Modelling conventions:
* Python floats are modelled as rationals (`ℚ`); every numeric computation in
  the verified code paths is exact decimal arithmetic, so this is faithful.
* `datetime.now()` is an effect; functions that read the clock take an explicit
  `now : ℚ` parameter (minutes on an arbitrary epoch).
* Fallible steps (a Python exception caught by a surrounding handler) are
  modelled with `Except Unit`.
* The free-form `details` dictionary attached to each signal is human-readable
  context only; no verified property reads it, so it is not carried in the
  embedding.
-/

/-- `MarketSignal` dataclass from pump_detector.py (sans the free-form
`details` map, which no verified property reads). -/
structure MarketSignal where
  coin : String
  signal_type : String
  strength : ℚ
  timestamp : ℚ
  deriving Repr, DecidableEq

/-- `PumpSignal` dataclass from pump_detector.py. -/
structure PumpSignal where
  coin : String
  score : ℚ
  confidence : String
  timeframe : String
  signals : List MarketSignal
  price : ℚ
  volume_24h : ℚ
  price_change_1h : ℚ
  price_change_5m : ℚ
  timestamp : ℚ
  deriving Repr, DecidableEq

namespace PumpDetector

-- `self.thresholds` dictionary from PumpDetector.__init__ (the entries the
-- detectors below consult).
def volume_spike_multiplier : ℚ := 5
def volume_extreme_multiplier : ℚ := 8
def price_momentum_5m : ℚ := 3
def price_momentum_15m : ℚ := 7
def order_book_imbalance : ℚ := 3
def order_book_extreme : ℚ := 5
def large_order_threshold : ℚ := 200000
def funding_rate_spike : ℚ := 8/100
def open_interest_change : ℚ := 20
def taker_buy_aggressive : ℚ := 60
def taker_buy_extreme : ℚ := 70
def long_short_extreme : ℚ := 70
def liquidation_cascade_threshold : ℚ := 1000000

/-- `PumpDetector.analyze_volume_spike`. -/
def analyze_volume_spike (now current_volume avg_volume volume_1h_ago : ℚ) :
    Option MarketSignal :=
  if avg_volume = 0 then none
  else
    let volume_ratio := current_volume / avg_volume
    let volume_acceleration := current_volume / max volume_1h_ago 1
    let base : Option (ℚ × String) :=
      if volume_ratio ≥ volume_extreme_multiplier then some (95, "EXTREME_VOLUME_SPIKE")
      else if volume_ratio ≥ volume_spike_multiplier then some (75, "VOLUME_SPIKE")
      else if volume_ratio ≥ 2 then some (50, "ELEVATED_VOLUME")
      else none
    match base with
    | none => none
    | some (strength, ty) =>
      let strength := if volume_acceleration > 2 then min 100 (strength + 10) else strength
      some ⟨"", ty, strength, now⟩

/-- `PumpDetector.analyze_price_momentum` (the `price_changes` dict is passed
as its three entries). -/
def analyze_price_momentum (now change_5m change_15m change_1h : ℚ) :
    List MarketSignal :=
  let s5 : List MarketSignal :=
    if |change_5m| ≥ price_momentum_5m then
      [⟨"", "STRONG_5M_MOMENTUM", min 100 (|change_5m| * 15), now⟩]
    else []
  let s15 : List MarketSignal :=
    if |change_15m| ≥ price_momentum_15m then
      [⟨"", "STRONG_15M_MOMENTUM", min 100 (|change_15m| * 8), now⟩]
    else []
  let s1h : List MarketSignal :=
    if |change_1h| ≥ 8 then
      [⟨"", "STRONG_1H_MOMENTUM", min 100 (|change_1h| * 5), now⟩]
    else []
  let accel : List MarketSignal :=
    if change_5m > 0 ∧ change_15m > 0 ∧ change_1h > 0 ∧ change_5m / 5 > change_15m / 15 then
      [⟨"", "MOMENTUM_ACCELERATION", 85, now⟩]
    else []
  s5 ++ s15 ++ s1h ++ accel

/-- `signal_weights` dictionary inside `calculate_confluence_score`
(`.get(ty, 1.0)` gives the final default). -/
def signal_weight (ty : String) : ℚ :=
  if ty = "EXTREME_VOLUME_SPIKE" then 13/10
  else if ty = "VOLUME_SPIKE" then 12/10
  else if ty = "EXTREME_BUY_PRESSURE" then 12/10
  else if ty = "SHORT_COVERING" then 125/100
  else if ty = "LONG_BUILDUP" then 12/10
  else if ty = "EXTREME_TAKER_BUYING" then 125/100
  else if ty = "AGGRESSIVE_TAKER_BUYING" then 115/100
  else if ty = "SHORT_SQUEEZE_SETUP" then 13/10
  else if ty = "SHORT_LIQUIDATION_CASCADE" then 135/100
  else if ty = "HIGH_SHORT_INTEREST" then 11/10
  else if ty = "LARGE_LIQUIDATION_ZONE" then 11/10
  else if ty = "MOMENTUM_ACCELERATION" then 115/100
  else if ty = "STRONG_5M_MOMENTUM" then 11/10
  else if ty = "BREAKOUT_PATTERN" then 115/100
  else if ty = "OPEN_INTEREST_SURGE" then 105/100
  else if ty = "LARGE_BUY_ORDERS" then 105/100
  else if ty = "SHORT_BUILDUP" then 5/10
  else if ty = "LONG_UNWINDING" then 5/10
  else if ty = "EXTREME_TAKER_SELLING" then 4/10
  else if ty = "OVERCROWDED_LONGS" then 6/10
  else 1

/-- `PumpDetector.analyze_order_book`. -/
def analyze_order_book (now bid_volume ask_volume large_bids large_asks : ℚ) :
    List MarketSignal :=
  if ask_volume = 0 then []
  else
    let imbalance_ratio := bid_volume / ask_volume
    let pressure : List MarketSignal :=
      if imbalance_ratio ≥ order_book_extreme then
        [⟨"", "EXTREME_BUY_PRESSURE", 90, now⟩]
      else if imbalance_ratio ≥ order_book_imbalance then
        [⟨"", "STRONG_BUY_PRESSURE", 70, now⟩]
      else []
    let large : List MarketSignal :=
      if large_bids > large_order_threshold then
        [⟨"", "LARGE_BUY_ORDERS", min 100 (large_bids / large_order_threshold * 30), now⟩]
      else []
    pressure ++ large

/-- `PumpDetector.analyze_funding_rate`. -/
def analyze_funding_rate (now current_rate avg_rate rate_change : ℚ) :
    Option MarketSignal :=
  if |rate_change| ≥ funding_rate_spike then
    some ⟨"", "FUNDING_RATE_SPIKE", min 100 (|rate_change| * 500), now⟩
  else none

/-- `PumpDetector.analyze_open_interest`. -/
def analyze_open_interest (now oi_change_pct oi_volume_ratio price_change : ℚ) :
    Option MarketSignal :=
  if |oi_change_pct| < 10 then none
  else
    let choice : Option (String × ℚ) :=
      if price_change > 1 ∧ oi_change_pct ≥ open_interest_change then
        some ("LONG_BUILDUP", min 95 (oi_change_pct * 3 + |price_change| * 2))
      else if price_change > 2 ∧ oi_change_pct < -10 then
        some ("SHORT_COVERING", min 90 (|oi_change_pct| * 4 + |price_change| * 3))
      else if price_change < -1 ∧ oi_change_pct ≥ 15 then
        some ("SHORT_BUILDUP", 30)
      else if price_change < -2 ∧ oi_change_pct < -10 then
        some ("LONG_UNWINDING", 25)
      else if oi_change_pct ≥ open_interest_change then
        some ("OPEN_INTEREST_SURGE", min 70 (oi_change_pct * (5/2)))
      else none
    choice.map fun c => ⟨"", c.1, c.2, now⟩

/-- `PumpDetector.analyze_taker_buy_sell` (the `taker_pressure` argument is
unused in the source as well). -/
def analyze_taker_buy_sell (now taker_buy_ratio : ℚ) (taker_pressure : String) :
    Option MarketSignal :=
  if taker_buy_ratio ≥ taker_buy_extreme then
    some ⟨"", "EXTREME_TAKER_BUYING", 95, now⟩
  else if taker_buy_ratio ≥ taker_buy_aggressive then
    some ⟨"", "AGGRESSIVE_TAKER_BUYING", 75, now⟩
  else if taker_buy_ratio ≤ 100 - taker_buy_extreme then
    some ⟨"", "EXTREME_TAKER_SELLING", 20, now⟩
  else none

/-- `PumpDetector.analyze_long_short_ratio`. -/
def analyze_long_short_ratio (now long_ratio short_ratio price_change : ℚ) :
    Option MarketSignal :=
  if short_ratio ≥ long_short_extreme ∧ price_change > 1 then
    some ⟨"", "SHORT_SQUEEZE_SETUP", 90, now⟩
  else if short_ratio > 60 then
    some ⟨"", "HIGH_SHORT_INTEREST", 70, now⟩
  else if long_ratio ≥ long_short_extreme then
    some ⟨"", "OVERCROWDED_LONGS", 30, now⟩
  else none

/-- `PumpDetector.analyze_liquidation_zones`.  The two distance computations
divide by `current_price`; in Python a zero price raises `ZeroDivisionError`,
which the caller `analyze_coin` catches.  That fallible path is modelled by
`Except Unit`. -/
def analyze_liquidation_zones (now current_price long_liq_price short_liq_price
    est_long_liq est_short_liq price_change : ℚ) :
    Except Unit (Option MarketSignal) :=
  if current_price = 0 then Except.error ()
  else
    let dist_to_short_liq := (short_liq_price - current_price) / current_price * 100
    let dist_to_long_liq := (current_price - long_liq_price) / current_price * 100
    if dist_to_short_liq < 2 ∧ price_change > 3/2 ∧
        est_short_liq ≥ liquidation_cascade_threshold then
      Except.ok (some ⟨"", "SHORT_LIQUIDATION_CASCADE", 85, now⟩)
    else if est_short_liq ≥ liquidation_cascade_threshold then
      Except.ok (some ⟨"", "LARGE_LIQUIDATION_ZONE", 60, now⟩)
    else
      Except.ok none

/-- Arithmetic mean of a list, `np.mean`. -/
def list_mean (l : List ℚ) : ℚ := l.sum / (l.length : ℚ)

/-- Population variance of a list, the square of `np.std`. -/
def list_pvar (l : List ℚ) : ℚ :=
  (l.map fun x => (x - list_mean l) ^ 2).sum / (l.length : ℚ)

/-- `PumpDetector.detect_breakout_pattern`.  The source compares standard
deviations (`first_std > 0 and second_std / first_std > 2.0`); since both
standard deviations are non-negative this is equivalent to the squared
comparison `first_var > 0 ∧ second_var > 4 * first_var` used here, which keeps
the embedding inside `ℚ`. -/
def detect_breakout_pattern (now : ℚ) (prices volumes : List ℚ) :
    Option MarketSignal :=
  if prices.length < 20 then none
  else
    let recent_prices := prices.drop (prices.length - 20)
    let recent_volumes := volumes.drop (volumes.length - 20)
    let first_half := recent_prices.take 10
    let second_half := recent_prices.drop 10
    let first_var := list_pvar first_half
    let second_var := list_pvar second_half
    if first_var > 0 ∧ second_var > 4 * first_var then
      let first_vol := list_mean (recent_volumes.take 10)
      let second_vol := list_mean (recent_volumes.drop 10)
      if second_vol / max first_vol 1 > 3/2 then
        some ⟨"", "BREAKOUT_PATTERN", 80, now⟩
      else none
    else none

/-- `PumpDetector.calculate_confluence_score`. -/
def calculate_confluence_score (signals : List MarketSignal) : ℚ × String :=
  if signals = [] then (0, "NONE")
  else
    let total_score :=
      signals.foldl (fun acc s => acc + s.strength * signal_weight s.signal_type) 0
    let base_score := total_score / (signals.length : ℚ)
    let confluence_bonus := min 20 ((signals.length : ℚ) * 3)
    let final_score := min 100 (base_score + confluence_bonus)
    let confidence :=
      if final_score ≥ 85 then "VERY_HIGH"
      else if final_score ≥ 75 then "HIGH"
      else if final_score ≥ 65 then "MEDIUM"
      else "LOW"
    (final_score, confidence)

/-- The `coin_data` dictionary consumed by `PumpDetector.analyze_coin`,
with that function's `.get` defaults as field defaults. -/
structure CoinData where
  symbol : String
  price : ℚ := 0
  volume_24h : ℚ := 0
  volume_current : ℚ := 0
  volume_avg : ℚ := 0
  volume_1h_ago : ℚ := 0
  price_change_5m : ℚ := 0
  price_change_15m : ℚ := 0
  price_change_1h : ℚ := 0
  bid_volume : ℚ := 0
  ask_volume : ℚ := 0
  large_bids : ℚ := 0
  large_asks : ℚ := 0
  funding_rate : ℚ := 0
  funding_rate_avg : ℚ := 0
  funding_rate_change : ℚ := 0
  oi_change_pct : ℚ := 0
  oi_volume_ratio : ℚ := 0
  taker_buy_ratio : ℚ := 50
  taker_pressure : String := "NEUTRAL"
  long_ratio : ℚ := 50
  short_ratio : ℚ := 50
  long_liq_price : ℚ := 0
  short_liq_price : ℚ := 0
  est_long_liq_volume : ℚ := 0
  est_short_liq_volume : ℚ := 0
  prices_history : Option (List ℚ) := none
  volumes_history : Option (List ℚ) := none

/-- The `signal.coin = coin` assignment done in `analyze_coin` after each
detector returns. -/
def set_coin (c : String) (s : MarketSignal) : MarketSignal := { s with coin := c }

/-- The signal-collection phase of `PumpDetector.analyze_coin` (steps 1-9),
in source order.  The only statement in the `try` block that can raise is the
liquidation-zone distance division (zero price), hence the `Except`. -/
def collect_signals (now : ℚ) (d : CoinData) : Except Unit (List MarketSignal) :=
  let s1 := (analyze_volume_spike now d.volume_current d.volume_avg d.volume_1h_ago).toList
  let s2 := analyze_price_momentum now d.price_change_5m d.price_change_15m d.price_change_1h
  let s3 := analyze_order_book now d.bid_volume d.ask_volume d.large_bids d.large_asks
  let s4 := (analyze_funding_rate now d.funding_rate d.funding_rate_avg d.funding_rate_change).toList
  let s5 := (analyze_open_interest now d.oi_change_pct d.oi_volume_ratio d.price_change_1h).toList
  let s6 := (analyze_taker_buy_sell now d.taker_buy_ratio d.taker_pressure).toList
  let s7 := (analyze_long_short_ratio now d.long_ratio d.short_ratio d.price_change_1h).toList
  match analyze_liquidation_zones now d.price d.long_liq_price d.short_liq_price
      d.est_long_liq_volume d.est_short_liq_volume d.price_change_1h with
  | Except.error e => Except.error e
  | Except.ok s8 =>
    let s9 :=
      match d.prices_history, d.volumes_history with
      | some ph, some vh => (detect_breakout_pattern now ph vh).toList
      | _, _ => []
    Except.ok ((s1 ++ s2 ++ s3 ++ s4 ++ s5 ++ s6 ++ s7 ++ s8.toList ++ s9).map
      (set_coin d.symbol))

/-- `PumpDetector.analyze_coin`: run every detector, score the confluence, and
emit a `PumpSignal` only when the score meets `min_score`.  An exception
inside the `try` block is caught and yields `None`. -/
def analyze_coin (min_score now : ℚ) (d : CoinData) : Option PumpSignal :=
  match collect_signals now d with
  | Except.error _ => none
  | Except.ok signals =>
    if signals = [] then none
    else
      let sc := calculate_confluence_score signals
      if sc.1 < min_score then none
      else
        some ⟨d.symbol, sc.1, sc.2, "INTRADAY", signals, d.price, d.volume_24h,
          d.price_change_1h, d.price_change_5m, now⟩

end PumpDetector

namespace MarketScanner

/-- A lightweight ticker row as consumed by `MarketScanner.quick_filter`. -/
structure Ticker where
  symbol : String
  volume_24h : ℚ
  price : ℚ
  price_change_24h : ℚ
  deriving Repr, DecidableEq

/-- The two `filter_thresholds` entries `quick_filter` consults. -/
structure FilterThresholds where
  min_volume_24h : ℚ
  max_price : ℚ
  deriving Repr, DecidableEq

/-- `MarketScanner.quick_filter`: the cheap pre-filter over bulk tickers.
The watchlist is the key set of `self.watchlist`. -/
def quick_filter (th : FilterThresholds) (watchlist : List String)
    (tickers : List Ticker) : List String :=
  tickers.foldr
    (fun t acc =>
      if t.volume_24h < th.min_volume_24h then acc
      else if t.price > th.max_price then acc
      else if |t.price_change_24h| > 8 then t.symbol :: acc
      else if t.volume_24h > th.min_volume_24h * 2 ∧ |t.price_change_24h| > 3 then
        t.symbol :: acc
      else if t.symbol ∈ watchlist then t.symbol :: acc
      else acc)
    []

/-- The spec-side cheap-filter predicate: volume ≥ minimum, price ≤ maximum,
and one of the three keep branches. -/
def passes_filter (th : FilterThresholds) (watchlist : List String) (t : Ticker) : Prop :=
  th.min_volume_24h ≤ t.volume_24h ∧ t.price ≤ th.max_price ∧
    (8 < |t.price_change_24h| ∨
      (th.min_volume_24h * 2 < t.volume_24h ∧ 3 < |t.price_change_24h|) ∨
      t.symbol ∈ watchlist)

instance (th : FilterThresholds) (watchlist : List String) (t : Ticker) :
    Decidable (passes_filter th watchlist t) := by
  unfold passes_filter; infer_instance

/-- In `MarketScanner.scan_market`, stage 3 hands exactly the stage-2 output
`filtered_symbols = quick_filter(all_tickers)` to `scan_symbols_batch` (deep
analysis). -/
def scan_market_deep_analysis_input (th : FilterThresholds) (watchlist : List String)
    (tickers : List Ticker) : List String :=
  quick_filter th watchlist tickers

end MarketScanner

namespace SignalTracker

/-- `SignalRecord` dataclass from signal_tracker.py.  Timestamps are minutes
on an arbitrary epoch. -/
structure SignalRecord where
  id : String
  coin : String
  timestamp : ℚ
  entry_price : ℚ
  score : ℚ
  confidence : String
  signals : List String
  price_5m : Option ℚ := none
  price_15m : Option ℚ := none
  price_30m : Option ℚ := none
  price_1h : Option ℚ := none
  price_4h : Option ℚ := none
  price_24h : Option ℚ := none
  change_5m : Option ℚ := none
  change_15m : Option ℚ := none
  change_30m : Option ℚ := none
  change_1h : Option ℚ := none
  change_4h : Option ℚ := none
  change_24h : Option ℚ := none
  max_gain : Option ℚ := none
  max_loss : Option ℚ := none
  success : Option Bool := none

/-- `SignalTracker._calculate_change`. -/
def calculate_change (entry_price current_price : ℚ) : ℚ :=
  if entry_price = 0 then 0
  else (current_price - entry_price) / entry_price * 100

/-- `SignalTracker.update_signal_price` for one record.  `ticker_price` is the
result of the `get_ticker_data` fetch; `none` (fetch failure) leaves the
record untouched, as the early `return` does.  `thr` is
`self.success_threshold`. -/
def update_signal_price (thr : ℚ) (ticker_price : Option ℚ) (interval_minutes : ℕ)
    (rec : SignalRecord) : SignalRecord :=
  match ticker_price with
  | none => rec
  | some current_price =>
    let change := calculate_change rec.entry_price current_price
    let rec1 :=
      if interval_minutes = 5 then
        { rec with price_5m := some current_price, change_5m := some change }
      else if interval_minutes = 15 then
        { rec with price_15m := some current_price, change_15m := some change }
      else if interval_minutes = 30 then
        { rec with price_30m := some current_price, change_30m := some change }
      else if interval_minutes = 60 then
        { rec with price_1h := some current_price, change_1h := some change }
      else if interval_minutes = 240 then
        { rec with price_4h := some current_price, change_4h := some change }
      else if interval_minutes = 1440 then
        { rec with price_24h := some current_price, change_24h := some change }
      else rec
    let new_gain : Option ℚ :=
      match rec1.max_gain with
      | none => some change
      | some g => if change > g then some change else some g
    let new_loss : Option ℚ :=
      match rec1.max_loss with
      | none => some change
      | some l => if change < l then some change else some l
    let rec2 := { rec1 with max_gain := new_gain, max_loss := new_loss }
    if interval_minutes = 60 then
      { rec2 with success := some (decide (change ≥ thr)) }
    else rec2

/-- `self.track_intervals`. -/
def track_intervals : List ℕ := [5, 15, 30, 60, 240, 1440]

/-- The `record_dict.get(interval_key)` lookup of `_tracking_loop`: the
interval key is `price_{i}m` for i < 60, `price_{i//60}h` for i < 1440 and
`price_24h` otherwise; keys that do not exist in the record dict give
`None`. -/
def interval_sample (rec : SignalRecord) (i : ℕ) : Option ℚ :=
  if i < 60 then
    if i = 5 then rec.price_5m
    else if i = 15 then rec.price_15m
    else if i = 30 then rec.price_30m
    else none
  else if i < 1440 then
    if i / 60 = 1 then rec.price_1h
    else if i / 60 = 4 then rec.price_4h
    else none
  else rec.price_24h

/-- One interval check of `_tracking_loop` for one record: update when the
interval has elapsed and its sample is still unset.  `feed i` is the price
the `update_signal_price` fetch would see for interval `i`. -/
def track_step (thr : ℚ) (feed : ℕ → Option ℚ) (now : ℚ) (rec : SignalRecord)
    (i : ℕ) : SignalRecord :=
  if now - rec.timestamp ≥ (i : ℚ) ∧ interval_sample rec i = none then
    update_signal_price thr (feed i) i rec
  else rec

/-- One `_tracking_loop` tick for one record: the `for interval in
self.track_intervals` loop. -/
def track_record_tick (thr : ℚ) (feed : ℕ → Option ℚ) (now : ℚ)
    (rec : SignalRecord) : SignalRecord :=
  track_intervals.foldl (track_step thr feed now) rec

/-- A sequence of tracker ticks (successive iterations of `_tracking_loop`),
each with its own clock reading and price feed. -/
def run_ticks (thr : ℚ) (ticks : List ((ℕ → Option ℚ) × ℚ)) (rec : SignalRecord) :
    SignalRecord :=
  ticks.foldl (fun r t => track_record_tick thr t.1 t.2 r) rec

/-- A sequence of successful price-sample updates: each entry is an interval
together with the price the fetch returned. -/
def run_updates (thr : ℚ) (ops : List (ℕ × ℚ)) (rec : SignalRecord) : SignalRecord :=
  ops.foldl (fun r op => update_signal_price thr (some op.2) op.1 r) rec

end SignalTracker

/-- Spec-side confidence-tier function: the documented thresholds
≥85 VERY_HIGH, ≥75 HIGH, ≥65 MEDIUM, else LOW. -/
def confidence_of (final_score : ℚ) : String :=
  if final_score ≥ 85 then "VERY_HIGH"
  else if final_score ≥ 75 then "HIGH"
  else if final_score ≥ 65 then "MEDIUM"
  else "LOW"

/-- Rank of a confidence tier, for stating tier monotonicity. -/
def tier_rank (c : String) : ℕ :=
  if c = "VERY_HIGH" then 3
  else if c = "HIGH" then 2
  else if c = "MEDIUM" then 1
  else 0

/-- Order on optional rationals with `none` as bottom (no observation yet). -/
def opt_le : Option ℚ → Option ℚ → Prop
  | none, _ => True
  | some _, none => False
  | some x, some y => x ≤ y

/-- Order on optional rationals with `none` as top (no observation yet);
`opt_le_down a b` says the new minimum `a` is at most the old one `b`. -/
def opt_le_down : Option ℚ → Option ℚ → Prop
  | _, none => True
  | none, some _ => False
  | some x, some y => x ≤ y

/-- The signal list the end-to-end example of the spec describes: current
volume 600, trailing-average volume 100, 5-minute change 4%, all other
detector inputs at the `analyze_coin` defaults (`volume_1h_ago` = 0, other
price changes 0). -/
def c3_signals : List MarketSignal :=
  (PumpDetector.analyze_volume_spike 0 600 100 0).toList ++
    PumpDetector.analyze_price_momentum 0 4 0 0

/-- A concrete snapshot used to witness determinism of the scoring engine. -/
def example_coin_data : PumpDetector.CoinData :=
  { symbol := "BTCUSDT", price := 1, volume_24h := 5000000, volume_current := 600,
    volume_avg := 100, price_change_5m := 4 }

/-- The weighted-sum total Σ strength·weight of `calculate_confluence_score`. -/
def weighted_total (signals : List MarketSignal) : ℚ :=
  (signals.map fun s => s.strength * PumpDetector.signal_weight s.signal_type).sum

/-- A concrete freshly recorded signal record used as witness input: entry
price $10, created at time 0 (minutes), all tracking fields unset. -/
def example_record : SignalTracker.SignalRecord :=
  { id := "BTCUSDT_20251012_000000", coin := "BTCUSDT", timestamp := 0,
    entry_price := 10, score := 90, confidence := "VERY_HIGH",
    signals := ["VOLUME_SPIKE", "STRONG_5M_MOMENTUM"] }

section ConfluenceScore

open PumpDetector

lemma ite_rat_pos {c : Prop} [Decidable c] {a b : ℚ} (ha : 0 < a) (hb : 0 < b) :
    0 < if c then a else b := by
  split <;> assumption

lemma signal_weight_pos (ty : String) : 0 < signal_weight ty := by
  unfold signal_weight
  repeat' apply ite_rat_pos
  all_goals norm_num

lemma weight_volume_spike : signal_weight "VOLUME_SPIKE" = 12/10 := by
  simp [signal_weight]

lemma weight_strong_5m : signal_weight "STRONG_5M_MOMENTUM" = 11/10 := by
  simp [signal_weight]

lemma c3_signals_eq :
    c3_signals = [⟨"", "VOLUME_SPIKE", 85, 0⟩, ⟨"", "STRONG_5M_MOMENTUM", 60, 0⟩] := by
  simp only [c3_signals, analyze_volume_spike, analyze_price_momentum,
    volume_extreme_multiplier, volume_spike_multiplier, price_momentum_5m,
    price_momentum_15m]
  norm_num

lemma c3_score_eq : calculate_confluence_score c3_signals = (90, "VERY_HIGH") := by
  rw [c3_signals_eq]
  unfold calculate_confluence_score
  rw [if_neg (by simp)]
  simp only [List.foldl, List.length, weight_volume_spike, weight_strong_5m]
  norm_num

/-- Claim C3 (counterexample): at the spec's end-to-end example input
(current volume 600, trailing-average 100, 5-minute change 4%), the engine
does not produce an EXTREME_VOLUME_SPIKE of strength 95, and the final score
is not 100: the 6x ratio is below the 8x extreme threshold. -/
theorem c3_counterexample :
    ¬ (c3_signals.map MarketSignal.signal_type =
          ["EXTREME_VOLUME_SPIKE", "STRONG_5M_MOMENTUM"] ∧
        c3_signals.map MarketSignal.strength = [95, 60] ∧
        (calculate_confluence_score c3_signals).1 = 100 ∧
        (calculate_confluence_score c3_signals).2 = "VERY_HIGH") := by
  rw [c3_score_eq, c3_signals_eq]
  intro h
  exact absurd h.1 (by simp)

/-- Claim C3 (amended): on the example input the engine produces exactly two
signals — a VOLUME_SPIKE of strength 85 (base 75 for the 6x ratio, which
meets the 5x spike tier but not the 8x extreme tier, plus the +10 volume
acceleration bonus since `volume_1h_ago` defaults to 0) and a
STRONG_5M_MOMENTUM of strength min(100, 4·15) = 60 — with weights 1.2 and
1.1, base score (85·1.2 + 60·1.1)/2 = 84, confluence bonus 6, final score 90,
tier VERY_HIGH. -/
theorem c3_amended :
    c3_signals.map MarketSignal.signal_type = ["VOLUME_SPIKE", "STRONG_5M_MOMENTUM"] ∧
    c3_signals.map MarketSignal.strength = [85, 60] ∧
    (calculate_confluence_score c3_signals).1 = 90 ∧
    (calculate_confluence_score c3_signals).2 = "VERY_HIGH" := by
  rw [c3_score_eq, c3_signals_eq]
  refine ⟨by simp, by simp, rfl, rfl⟩

lemma foldl_add_map (f : MarketSignal → ℚ) (l : List MarketSignal) (a : ℚ) :
    l.foldl (fun acc s => acc + f s) a = a + (l.map f).sum := by
  induction l generalizing a with
  | nil => simp
  | cons x xs ih => simp [ih, add_assoc]

lemma confluence_score_eq (signals : List MarketSignal) (hne : signals ≠ []) :
    calculate_confluence_score signals =
      (min 100 (weighted_total signals / (signals.length : ℚ) +
          min 20 ((signals.length : ℚ) * 3)),
        confidence_of (min 100 (weighted_total signals / (signals.length : ℚ) +
          min 20 ((signals.length : ℚ) * 3)))) := by
  simp only [calculate_confluence_score, if_neg hne]
  rw [foldl_add_map (fun s => s.strength * signal_weight s.signal_type) signals 0, zero_add]
  rfl

lemma weighted_total_nonneg (signals : List MarketSignal)
    (hs : ∀ s ∈ signals, 0 ≤ s.strength ∧ s.strength ≤ 100) :
    0 ≤ weighted_total signals := by
  apply List.sum_nonneg
  intro x hx
  simp only [List.mem_map] at hx
  obtain ⟨s, hmem, rfl⟩ := hx
  exact mul_nonneg (hs s hmem).1 (signal_weight_pos s.signal_type).le

/-- Claim C1: for a non-empty signal list with strengths in [0,100], the
combined score equals the weighted average Σ strength·weight / count plus the
confluence bonus min(20, 3·count), clamped to [0,100], and the result lies in
[0,100]. -/
theorem c1_confluence_score_formula (signals : List MarketSignal)
    (hne : signals ≠ [])
    (hs : ∀ s ∈ signals, 0 ≤ s.strength ∧ s.strength ≤ 100) :
    (calculate_confluence_score signals).1 =
      max 0 (min 100 (weighted_total signals / (signals.length : ℚ) +
        min 20 ((signals.length : ℚ) * 3))) ∧
    0 ≤ (calculate_confluence_score signals).1 ∧
    (calculate_confluence_score signals).1 ≤ 100 := by
  have hlen : (0:ℚ) < (signals.length : ℚ) := by
    exact_mod_cast List.length_pos.mpr hne
  have hbase : 0 ≤ weighted_total signals / (signals.length : ℚ) :=
    div_nonneg (weighted_total_nonneg signals hs) hlen.le
  have hbonus : (0:ℚ) ≤ min 20 ((signals.length : ℚ) * 3) :=
    le_min (by norm_num) (by positivity)
  have hnonneg : (0:ℚ) ≤ min 100 (weighted_total signals / (signals.length : ℚ) +
      min 20 ((signals.length : ℚ) * 3)) :=
    le_min (by norm_num) (add_nonneg hbase hbonus)
  rw [confluence_score_eq signals hne]
  exact ⟨(max_eq_right hnonneg).symm, hnonneg, min_le_left _ _⟩

lemma tier_rank_confidence_mono {a b : ℚ} (hab : a ≤ b) :
    tier_rank (confidence_of a) ≤ tier_rank (confidence_of b) := by
  unfold confidence_of
  split_ifs <;> simp [tier_rank] <;> linarith

/-- Claim C2: for non-empty signal lists the confidence component of
`calculate_confluence_score` is exactly the fixed-threshold function of the
final score (≥85 VERY_HIGH, ≥75 HIGH, ≥65 MEDIUM, else LOW), and the tier is
monotone in the score: a higher final score never yields a strictly lower
tier. -/
theorem c2_confidence_tier_monotone (s₁ s₂ : List MarketSignal)
    (h₁ : s₁ ≠ []) (h₂ : s₂ ≠ [])
    (hle : (calculate_confluence_score s₁).1 ≤ (calculate_confluence_score s₂).1) :
    (calculate_confluence_score s₁).2 = confidence_of (calculate_confluence_score s₁).1 ∧
    (calculate_confluence_score s₂).2 = confidence_of (calculate_confluence_score s₂).1 ∧
    tier_rank (calculate_confluence_score s₁).2 ≤
      tier_rank (calculate_confluence_score s₂).2 := by
  have e₁ := confluence_score_eq s₁ h₁
  have e₂ := confluence_score_eq s₂ h₂
  refine ⟨by rw [e₁], by rw [e₂], ?_⟩
  rw [e₁, e₂]
  rw [e₁, e₂] at hle
  exact tier_rank_confidence_mono hle

/-- Witness for C1 at a concrete one-signal list. -/
theorem c1_confluence_score_formula_witness :
    (([⟨"", "X", 50, 0⟩] : List MarketSignal) ≠ []) ∧
    (∀ s ∈ ([⟨"", "X", 50, 0⟩] : List MarketSignal), 0 ≤ s.strength ∧ s.strength ≤ 100) ∧
    ((calculate_confluence_score [⟨"", "X", 50, 0⟩]).1 =
      max 0 (min 100 (weighted_total [⟨"", "X", 50, 0⟩] /
          ((([⟨"", "X", 50, 0⟩] : List MarketSignal).length : ℚ)) +
        min 20 ((([⟨"", "X", 50, 0⟩] : List MarketSignal).length : ℚ) * 3))) ∧
      0 ≤ (calculate_confluence_score [⟨"", "X", 50, 0⟩]).1 ∧
      (calculate_confluence_score [⟨"", "X", 50, 0⟩]).1 ≤ 100) := by
  have h1 : ([⟨"", "X", 50, 0⟩] : List MarketSignal) ≠ [] := by simp
  have h2 : ∀ s ∈ ([⟨"", "X", 50, 0⟩] : List MarketSignal),
      0 ≤ s.strength ∧ s.strength ≤ 100 := by
    intro s hs
    simp only [List.mem_singleton] at hs
    subst hs
    exact ⟨by norm_num, by norm_num⟩
  exact ⟨h1, h2, c1_confluence_score_formula _ h1 h2⟩

/-- Witness for C2 at a concrete pair of lists. -/
theorem c2_confidence_tier_monotone_witness :
    (([⟨"", "X", 50, 0⟩] : List MarketSignal) ≠ []) ∧
    ((calculate_confluence_score [⟨"", "X", 50, 0⟩]).1 ≤
      (calculate_confluence_score [⟨"", "X", 50, 0⟩]).1) ∧
    ((calculate_confluence_score [⟨"", "X", 50, 0⟩]).2 =
        confidence_of (calculate_confluence_score [⟨"", "X", 50, 0⟩]).1 ∧
      (calculate_confluence_score [⟨"", "X", 50, 0⟩]).2 =
        confidence_of (calculate_confluence_score [⟨"", "X", 50, 0⟩]).1 ∧
      tier_rank (calculate_confluence_score [⟨"", "X", 50, 0⟩]).2 ≤
        tier_rank (calculate_confluence_score [⟨"", "X", 50, 0⟩]).2) := by
  have h1 : ([⟨"", "X", 50, 0⟩] : List MarketSignal) ≠ [] := by simp
  exact ⟨h1, le_refl _, c2_confidence_tier_monotone _ _ h1 h1 (le_refl _)⟩

/-- Claim C9: on the empty signal list, `calculate_confluence_score` returns
score 0 and the out-of-enumeration confidence value "NONE". -/
theorem c9_empty_signals_none :
    calculate_confluence_score [] = (0, "NONE") ∧
    "NONE" ≠ "LOW" ∧ "NONE" ≠ "MEDIUM" ∧ "NONE" ≠ "HIGH" ∧ "NONE" ≠ "VERY_HIGH" := by
  refine ⟨rfl, by decide, by decide, by decide, by decide⟩

/-- Claim C10: with a trailing-average volume of zero, the volume-spike
detector returns no signal; the volume-ratio division is guarded by the
`avg_volume == 0` early return. -/
theorem c10_zero_avg_volume_guard (now current_volume volume_1h_ago : ℚ) :
    analyze_volume_spike now current_volume 0 volume_1h_ago = none := by
  simp [analyze_volume_spike]

end ConfluenceScore

section Scanner

open MarketScanner

lemma quick_filter_cons (th : FilterThresholds) (wl : List String) (t : Ticker)
    (ts : List Ticker) :
    quick_filter th wl (t :: ts) =
      if t.volume_24h < th.min_volume_24h then quick_filter th wl ts
      else if t.price > th.max_price then quick_filter th wl ts
      else if |t.price_change_24h| > 8 then t.symbol :: quick_filter th wl ts
      else if t.volume_24h > th.min_volume_24h * 2 ∧ |t.price_change_24h| > 3 then
        t.symbol :: quick_filter th wl ts
      else if t.symbol ∈ wl then t.symbol :: quick_filter th wl ts
      else quick_filter th wl ts := rfl

/-- Claim C4: every symbol handed to the deep-analysis stage of `scan_market`
comes from a bulk ticker that passed the cheap filter: its 24h volume is at
least the configured minimum, its price at most the configured maximum, and
it satisfies one of the three keep branches (|24h change| > 8, or volume >
2x minimum with |24h change| > 3, or watchlist membership). -/
theorem c4_cheap_filter_strict (th : FilterThresholds) (wl : List String)
    (tickers : List Ticker) (s : String)
    (hs : s ∈ scan_market_deep_analysis_input th wl tickers) :
    ∃ t ∈ tickers, t.symbol = s ∧ passes_filter th wl t := by
  unfold scan_market_deep_analysis_input at hs
  induction tickers with
  | nil => simp [quick_filter] at hs
  | cons t ts ih =>
    rw [quick_filter_cons] at hs
    split_ifs at hs with h1 h2 h3 h4 h5
    · obtain ⟨u, hu, husym, hup⟩ := ih hs
      exact ⟨u, List.mem_cons_of_mem _ hu, husym, hup⟩
    · obtain ⟨u, hu, husym, hup⟩ := ih hs
      exact ⟨u, List.mem_cons_of_mem _ hu, husym, hup⟩
    · rcases List.mem_cons.mp hs with rfl | hmem
      · exact ⟨t, List.mem_cons_self t ts, rfl,
          le_of_not_lt h1, le_of_not_lt h2, Or.inl h3⟩
      · obtain ⟨u, hu, husym, hup⟩ := ih hmem
        exact ⟨u, List.mem_cons_of_mem _ hu, husym, hup⟩
    · rcases List.mem_cons.mp hs with rfl | hmem
      · exact ⟨t, List.mem_cons_self t ts, rfl,
          le_of_not_lt h1, le_of_not_lt h2, Or.inr (Or.inl h4)⟩
      · obtain ⟨u, hu, husym, hup⟩ := ih hmem
        exact ⟨u, List.mem_cons_of_mem _ hu, husym, hup⟩
    · rcases List.mem_cons.mp hs with rfl | hmem
      · exact ⟨t, List.mem_cons_self t ts, rfl,
          le_of_not_lt h1, le_of_not_lt h2, Or.inr (Or.inr h5)⟩
      · obtain ⟨u, hu, husym, hup⟩ := ih hmem
        exact ⟨u, List.mem_cons_of_mem _ hu, husym, hup⟩
    · obtain ⟨u, hu, husym, hup⟩ := ih hs
      exact ⟨u, List.mem_cons_of_mem _ hu, husym, hup⟩

/-- Witness for C4: a mover with 9% 24h change and sufficient volume reaches
deep analysis and satisfies the filter predicate. -/
theorem c4_cheap_filter_strict_witness :
    ("AAAUSDT" ∈ scan_market_deep_analysis_input ⟨500000, 100000⟩ []
      [⟨"AAAUSDT", 600000, 1, 9⟩]) ∧
    ∃ t ∈ ([⟨"AAAUSDT", 600000, 1, 9⟩] : List Ticker),
      t.symbol = "AAAUSDT" ∧ passes_filter ⟨500000, 100000⟩ [] t := by
  have hmem : "AAAUSDT" ∈ scan_market_deep_analysis_input ⟨500000, 100000⟩ []
      [⟨"AAAUSDT", 600000, 1, 9⟩] := by
    norm_num [scan_market_deep_analysis_input, quick_filter]
  exact ⟨hmem, c4_cheap_filter_strict _ _ _ _ hmem⟩

end Scanner

section Tracker

open SignalTracker

lemma update_frame (thr : ℚ) (fp : Option ℚ) (i : ℕ) (r : SignalRecord) :
    (update_signal_price thr fp i r).id = r.id ∧
    (update_signal_price thr fp i r).coin = r.coin ∧
    (update_signal_price thr fp i r).timestamp = r.timestamp ∧
    (update_signal_price thr fp i r).entry_price = r.entry_price ∧
    (update_signal_price thr fp i r).score = r.score ∧
    (update_signal_price thr fp i r).confidence = r.confidence ∧
    (update_signal_price thr fp i r).signals = r.signals := by
  cases fp with
  | none => exact ⟨rfl, rfl, rfl, rfl, rfl, rfl, rfl⟩
  | some p =>
    simp only [update_signal_price]
    split_ifs <;> simp

lemma update_1h_frame (thr : ℚ) (fp : Option ℚ) (i : ℕ) (r : SignalRecord)
    (hi : i ≠ 60) :
    (update_signal_price thr fp i r).price_1h = r.price_1h ∧
    (update_signal_price thr fp i r).change_1h = r.change_1h ∧
    (update_signal_price thr fp i r).success = r.success := by
  cases fp with
  | none => exact ⟨rfl, rfl, rfl⟩
  | some p =>
    simp only [update_signal_price]
    split_ifs <;> simp_all

lemma update_60_eq (thr p : ℚ) (r : SignalRecord) :
    (update_signal_price thr (some p) 60 r).price_1h = some p ∧
    (update_signal_price thr (some p) 60 r).change_1h =
      some (calculate_change r.entry_price p) ∧
    (update_signal_price thr (some p) 60 r).success =
      some (decide (calculate_change r.entry_price p ≥ thr)) := by
  simp [update_signal_price]

lemma track_step_frame (thr : ℚ) (feed : ℕ → Option ℚ) (now : ℚ)
    (r : SignalRecord) (i : ℕ) :
    (track_step thr feed now r i).id = r.id ∧
    (track_step thr feed now r i).coin = r.coin ∧
    (track_step thr feed now r i).timestamp = r.timestamp ∧
    (track_step thr feed now r i).entry_price = r.entry_price ∧
    (track_step thr feed now r i).score = r.score ∧
    (track_step thr feed now r i).confidence = r.confidence ∧
    (track_step thr feed now r i).signals = r.signals := by
  unfold track_step
  split
  · exact update_frame thr (feed i) i r
  · exact ⟨rfl, rfl, rfl, rfl, rfl, rfl, rfl⟩

lemma track_step_1h_frame (thr : ℚ) (feed : ℕ → Option ℚ) (now : ℚ)
    (r : SignalRecord) (i : ℕ) (hi : i ≠ 60) :
    (track_step thr feed now r i).price_1h = r.price_1h ∧
    (track_step thr feed now r i).change_1h = r.change_1h ∧
    (track_step thr feed now r i).success = r.success := by
  unfold track_step
  split
  · exact update_1h_frame thr (feed i) i r hi
  · exact ⟨rfl, rfl, rfl⟩

lemma foldl_track_frame (thr : ℚ) (feed : ℕ → Option ℚ) (now : ℚ) (l : List ℕ) :
    ∀ r : SignalRecord,
      (l.foldl (track_step thr feed now) r).id = r.id ∧
      (l.foldl (track_step thr feed now) r).coin = r.coin ∧
      (l.foldl (track_step thr feed now) r).timestamp = r.timestamp ∧
      (l.foldl (track_step thr feed now) r).entry_price = r.entry_price ∧
      (l.foldl (track_step thr feed now) r).score = r.score ∧
      (l.foldl (track_step thr feed now) r).confidence = r.confidence ∧
      (l.foldl (track_step thr feed now) r).signals = r.signals := by
  induction l with
  | nil => exact fun r => ⟨rfl, rfl, rfl, rfl, rfl, rfl, rfl⟩
  | cons i l ih =>
    intro r
    obtain ⟨a1, a2, a3, a4, a5, a6, a7⟩ := ih (track_step thr feed now r i)
    obtain ⟨b1, b2, b3, b4, b5, b6, b7⟩ := track_step_frame thr feed now r i
    exact ⟨a1.trans b1, a2.trans b2, a3.trans b3, a4.trans b4, a5.trans b5,
      a6.trans b6, a7.trans b7⟩

lemma track_tick_frame (thr : ℚ) (feed : ℕ → Option ℚ) (now : ℚ) (r : SignalRecord) :
    (track_record_tick thr feed now r).id = r.id ∧
    (track_record_tick thr feed now r).coin = r.coin ∧
    (track_record_tick thr feed now r).timestamp = r.timestamp ∧
    (track_record_tick thr feed now r).entry_price = r.entry_price ∧
    (track_record_tick thr feed now r).score = r.score ∧
    (track_record_tick thr feed now r).confidence = r.confidence ∧
    (track_record_tick thr feed now r).signals = r.signals :=
  foldl_track_frame thr feed now track_intervals r

/-- Claim C6: across any sequence of tracker ticks, a record's id, coin,
creation timestamp, entry price, score, confidence and contributing-signal
list are never modified; consequently every percent change the tracker
computes (which is `calculate_change` of the record's current entry price by
definition of `update_signal_price`) is relative to the originally stored
entry price. -/
theorem c6_entry_price_frozen (thr : ℚ) (ticks : List ((ℕ → Option ℚ) × ℚ))
    (rec : SignalRecord) :
    (run_ticks thr ticks rec).id = rec.id ∧
    (run_ticks thr ticks rec).coin = rec.coin ∧
    (run_ticks thr ticks rec).timestamp = rec.timestamp ∧
    (run_ticks thr ticks rec).entry_price = rec.entry_price ∧
    (run_ticks thr ticks rec).score = rec.score ∧
    (run_ticks thr ticks rec).confidence = rec.confidence ∧
    (run_ticks thr ticks rec).signals = rec.signals ∧
    ∀ p : ℚ, calculate_change (run_ticks thr ticks rec).entry_price p =
      calculate_change rec.entry_price p := by
  induction ticks generalizing rec with
  | nil => exact ⟨rfl, rfl, rfl, rfl, rfl, rfl, rfl, fun _ => rfl⟩
  | cons tk ticks ih =>
    obtain ⟨a1, a2, a3, a4, a5, a6, a7, _⟩ := ih (track_record_tick thr tk.1 tk.2 rec)
    obtain ⟨b1, b2, b3, b4, b5, b6, b7⟩ := track_tick_frame thr tk.1 tk.2 rec
    refine ⟨a1.trans b1, a2.trans b2, a3.trans b3, a4.trans b4, a5.trans b5,
      a6.trans b6, a7.trans b7, fun p => ?_⟩
    rw [show (run_ticks thr (tk :: ticks) rec).entry_price = rec.entry_price from
      a4.trans b4]

lemma interval_sample_60 (r : SignalRecord) : interval_sample r 60 = r.price_1h := by
  norm_num [interval_sample]

/-- Claim C5: within any tracker tick, the 1-hour sample (price_1h together
with change_1h) is written only when at least 60 minutes have elapsed since
the record's creation timestamp, and whenever it is written the success flag
is set to exactly whether the percent change from the frozen entry price at
the 1h sample meets the success threshold. -/
theorem c5_one_hour_sample (thr now : ℚ) (feed : ℕ → Option ℚ) (rec : SignalRecord)
    (h0 : rec.price_1h = none) (p : ℚ)
    (h1 : (track_record_tick thr feed now rec).price_1h = some p) :
    60 ≤ now - rec.timestamp ∧
    (track_record_tick thr feed now rec).change_1h =
      some (calculate_change rec.entry_price p) ∧
    (track_record_tick thr feed now rec).success =
      some (decide (calculate_change rec.entry_price p ≥ thr)) := by
  have hunfold : track_record_tick thr feed now rec =
      track_step thr feed now (track_step thr feed now (track_step thr feed now
        (track_step thr feed now (track_step thr feed now (track_step thr feed now
          rec 5) 15) 30) 60) 240) 1440 := rfl
  set r1 := track_step thr feed now rec 5 with hr1
  set r2 := track_step thr feed now r1 15 with hr2
  set r3 := track_step thr feed now r2 30 with hr3
  set r4 := track_step thr feed now r3 60 with hr4
  set r5 := track_step thr feed now r4 240 with hr5
  set r6 := track_step thr feed now r5 1440 with hr6
  have s1 := track_step_1h_frame thr feed now rec 5 (by norm_num)
  have s2 := track_step_1h_frame thr feed now r1 15 (by norm_num)
  have s3 := track_step_1h_frame thr feed now r2 30 (by norm_num)
  have s5 := track_step_1h_frame thr feed now r4 240 (by norm_num)
  have s6 := track_step_1h_frame thr feed now r5 1440 (by norm_num)
  have hts : r3.timestamp = rec.timestamp :=
    ((track_step_frame thr feed now r2 30).2.2.1).trans
      (((track_step_frame thr feed now r1 15).2.2.1).trans
        ((track_step_frame thr feed now rec 5).2.2.1))
  have hep : r3.entry_price = rec.entry_price :=
    ((track_step_frame thr feed now r2 30).2.2.2.1).trans
      (((track_step_frame thr feed now r1 15).2.2.2.1).trans
        ((track_step_frame thr feed now rec 5).2.2.2.1))
  have hp3 : r3.price_1h = none := (s3.1).trans ((s2.1).trans ((s1.1).trans h0))
  have hchain : (track_record_tick thr feed now rec).price_1h = r4.price_1h :=
    (s6.1).trans (s5.1)
  have h1' : r4.price_1h = some p := hchain.symm.trans h1
  have hc6 : (track_record_tick thr feed now rec).change_1h = r4.change_1h :=
    (s6.2.1).trans (s5.2.1)
  have hs6 : (track_record_tick thr feed now rec).success = r4.success :=
    (s6.2.2).trans (s5.2.2)
  by_cases hcond : now - r3.timestamp ≥ ((60 : ℕ) : ℚ)
  · have hr4eq : r4 = update_signal_price thr (feed 60) 60 r3 := by
      show track_step thr feed now r3 60 = _
      unfold track_step
      exact if_pos ⟨hcond, (interval_sample_60 r3).trans hp3⟩
    cases hfeed : feed 60 with
    | none =>
      rw [hr4eq, hfeed] at h1'
      simp only [update_signal_price] at h1'
      rw [hp3] at h1'
      exact absurd h1' (by simp)
    | some q =>
      obtain ⟨u1, u2, u3⟩ := update_60_eq thr q r3
      rw [hr4eq, hfeed] at h1' hc6 hs6
      rw [u1] at h1'
      have hqp : q = p := by injection h1'
      subst hqp
      refine ⟨?_, ?_, ?_⟩
      · have h60 : ((60 : ℕ) : ℚ) = (60 : ℚ) := by norm_num
        rw [h60, hts] at hcond
        exact hcond
      · rw [hc6, u2, hep]
      · rw [hs6, u3, hep]
  · have hr4eq : r4 = r3 := by
      show track_step thr feed now r3 60 = r3
      unfold track_step
      exact if_neg (fun hc => hcond hc.1)
    rw [hr4eq, hp3] at h1'
    exact absurd h1' (by simp)

/-- Witness for C5: the spec's outcome example — entry price $10 at time 0,
1h price $10.25 fetched at the 60-minute tick. -/
theorem c5_one_hour_sample_witness :
    example_record.price_1h = none ∧
    (track_record_tick 3 (fun i => if i = 60 then some (41/4) else none) 60
      example_record).price_1h = some (41/4) ∧
    (60 ≤ (60 : ℚ) - example_record.timestamp ∧
      (track_record_tick 3 (fun i => if i = 60 then some (41/4) else none) 60
        example_record).change_1h =
        some (calculate_change example_record.entry_price (41/4)) ∧
      (track_record_tick 3 (fun i => if i = 60 then some (41/4) else none) 60
        example_record).success =
        some (decide (calculate_change example_record.entry_price (41/4) ≥ 3))) := by
  have h1 : (track_record_tick 3 (fun i => if i = 60 then some (41/4) else none) 60
      example_record).price_1h = some (41/4) := by
    norm_num [track_record_tick, track_intervals, track_step, update_signal_price,
      interval_sample, calculate_change, example_record]
  exact ⟨rfl, h1, c5_one_hour_sample 3 60 _ example_record rfl (41/4) h1⟩

lemma opt_le_rfl (a : Option ℚ) : opt_le a a := by
  cases a <;> simp [opt_le]

lemma opt_le_trans {a b c : Option ℚ} (h1 : opt_le a b) (h2 : opt_le b c) :
    opt_le a c := by
  cases a <;> cases b <;> cases c <;> simp [opt_le] at * <;> linarith

lemma opt_le_down_rfl (a : Option ℚ) : opt_le_down a a := by
  cases a <;> simp [opt_le_down]

lemma opt_le_down_trans {a b c : Option ℚ} (h1 : opt_le_down a b) (h2 : opt_le_down b c) :
    opt_le_down a c := by
  cases a <;> cases b <;> cases c <;> simp [opt_le_down] at * <;> linarith

lemma update_entry (thr : ℚ) (fp : Option ℚ) (i : ℕ) (r : SignalRecord) :
    (update_signal_price thr fp i r).entry_price = r.entry_price :=
  (update_frame thr fp i r).2.2.2.1

lemma ite_gt_eq_max (g c : ℚ) :
    (if c > g then (some c : Option ℚ) else some g) = some (max g c) := by
  rcases le_or_lt c g with h | h
  · rw [if_neg (not_lt.2 h), max_eq_left h]
  · rw [if_pos h, max_eq_right h.le]

lemma ite_lt_eq_min (l c : ℚ) :
    (if c < l then (some c : Option ℚ) else some l) = some (min l c) := by
  rcases le_or_lt l c with h | h
  · rw [if_neg (not_lt.2 h), min_eq_left h]
  · rw [if_pos h, min_eq_right h.le]

lemma update_gain_none (thr p : ℚ) (i : ℕ) (r : SignalRecord)
    (hg : r.max_gain = none) :
    (update_signal_price thr (some p) i r).max_gain =
      some (calculate_change r.entry_price p) := by
  simp only [update_signal_price]
  split_ifs <;> simp [hg]

lemma update_gain_some (thr p : ℚ) (i : ℕ) (r : SignalRecord) (g : ℚ)
    (hg : r.max_gain = some g) :
    (update_signal_price thr (some p) i r).max_gain =
      some (max g (calculate_change r.entry_price p)) := by
  simp only [update_signal_price]
  split_ifs <;> simp [hg, ite_gt_eq_max]

lemma update_loss_none (thr p : ℚ) (i : ℕ) (r : SignalRecord)
    (hl : r.max_loss = none) :
    (update_signal_price thr (some p) i r).max_loss =
      some (calculate_change r.entry_price p) := by
  simp only [update_signal_price]
  split_ifs <;> simp [hl]

lemma update_loss_some (thr p : ℚ) (i : ℕ) (r : SignalRecord) (l : ℚ)
    (hl : r.max_loss = some l) :
    (update_signal_price thr (some p) i r).max_loss =
      some (min l (calculate_change r.entry_price p)) := by
  simp only [update_signal_price]
  split_ifs <;> simp [hl, ite_lt_eq_min]

lemma update_gain_mono (thr : ℚ) (fp : Option ℚ) (i : ℕ) (r : SignalRecord) :
    opt_le r.max_gain (update_signal_price thr fp i r).max_gain := by
  cases fp with
  | none => exact opt_le_rfl _
  | some p =>
    cases hg : r.max_gain with
    | none => simp [opt_le]
    | some g =>
      rw [update_gain_some thr p i r g hg]
      show g ≤ max g (calculate_change r.entry_price p)
      exact le_max_left _ _

lemma update_loss_mono (thr : ℚ) (fp : Option ℚ) (i : ℕ) (r : SignalRecord) :
    opt_le_down (update_signal_price thr fp i r).max_loss r.max_loss := by
  cases fp with
  | none => exact opt_le_down_rfl _
  | some p =>
    cases hl : r.max_loss with
    | none => simp [opt_le_down]
    | some l =>
      rw [update_loss_some thr p i r l hl]
      show min l (calculate_change r.entry_price p) ≤ l
      exact min_le_left _ _

lemma run_updates_gain_mono (thr : ℚ) (ops : List (ℕ × ℚ)) :
    ∀ r : SignalRecord, opt_le r.max_gain (run_updates thr ops r).max_gain := by
  induction ops with
  | nil => exact fun r => opt_le_rfl _
  | cons op ops ih =>
    intro r
    exact opt_le_trans (update_gain_mono thr (some op.2) op.1 r) (ih _)

lemma run_updates_loss_mono (thr : ℚ) (ops : List (ℕ × ℚ)) :
    ∀ r : SignalRecord, opt_le_down (run_updates thr ops r).max_loss r.max_loss := by
  induction ops with
  | nil => exact fun r => opt_le_down_rfl _
  | cons op ops ih =>
    intro r
    exact opt_le_down_trans (ih _) (update_loss_mono thr (some op.2) op.1 r)

lemma run_updates_gain_acc (thr : ℚ) (ops : List (ℕ × ℚ)) :
    ∀ (r : SignalRecord) (g : ℚ), r.max_gain = some g →
      (run_updates thr ops r).max_gain =
        some (List.foldl max g (ops.map fun o => calculate_change r.entry_price o.2)) := by
  induction ops with
  | nil =>
    intro r g hg
    simpa [run_updates] using hg
  | cons op ops ih =>
    intro r g hg
    have hstep := update_gain_some thr op.2 op.1 r g hg
    have hent := update_entry thr (some op.2) op.1 r
    have hrest := ih (update_signal_price thr (some op.2) op.1 r) _ hstep
    rw [hent] at hrest
    simpa [run_updates] using hrest

lemma run_updates_loss_acc (thr : ℚ) (ops : List (ℕ × ℚ)) :
    ∀ (r : SignalRecord) (l : ℚ), r.max_loss = some l →
      (run_updates thr ops r).max_loss =
        some (List.foldl min l (ops.map fun o => calculate_change r.entry_price o.2)) := by
  induction ops with
  | nil =>
    intro r l hl
    simpa [run_updates] using hl
  | cons op ops ih =>
    intro r l hl
    have hstep := update_loss_some thr op.2 op.1 r l hl
    have hent := update_entry thr (some op.2) op.1 r
    have hrest := ih (update_signal_price thr (some op.2) op.1 r) _ hstep
    rw [hent] at hrest
    simpa [run_updates] using hrest

/-- Claim C7: across any sequence of successful price-sample updates the
stored max_gain is monotonically non-decreasing and the stored max_loss
monotonically non-increasing, and starting from a fresh record they equal
respectively the maximum and minimum percent change observed so far. -/
theorem c7_max_gain_loss_monotone (thr : ℚ) (rec : SignalRecord)
    (pre suf ops : List (ℕ × ℚ)) (op : ℕ × ℚ)
    (hg : rec.max_gain = none) (hl : rec.max_loss = none) :
    opt_le (run_updates thr pre rec).max_gain
      (run_updates thr (pre ++ suf) rec).max_gain ∧
    opt_le_down (run_updates thr (pre ++ suf) rec).max_loss
      (run_updates thr pre rec).max_loss ∧
    (run_updates thr (op :: ops) rec).max_gain =
      some (List.foldl max (calculate_change rec.entry_price op.2)
        (ops.map fun o => calculate_change rec.entry_price o.2)) ∧
    (run_updates thr (op :: ops) rec).max_loss =
      some (List.foldl min (calculate_change rec.entry_price op.2)
        (ops.map fun o => calculate_change rec.entry_price o.2)) := by
  have happ : run_updates thr (pre ++ suf) rec =
      run_updates thr suf (run_updates thr pre rec) := by
    simp [run_updates, List.foldl_append]
  refine ⟨?_, ?_, ?_, ?_⟩
  · rw [happ]
    exact run_updates_gain_mono thr suf _
  · rw [happ]
    exact run_updates_loss_mono thr suf _
  · have hstep := update_gain_none thr op.2 op.1 rec hg
    have hent := update_entry thr (some op.2) op.1 rec
    have hrest := run_updates_gain_acc thr ops
      (update_signal_price thr (some op.2) op.1 rec) _ hstep
    rw [hent] at hrest
    simpa [run_updates] using hrest
  · have hstep := update_loss_none thr op.2 op.1 rec hl
    have hent := update_entry thr (some op.2) op.1 rec
    have hrest := run_updates_loss_acc thr ops
      (update_signal_price thr (some op.2) op.1 rec) _ hstep
    rw [hent] at hrest
    simpa [run_updates] using hrest

/-- Witness for C7 at a concrete update sequence: +5% then -10% from entry
price $10. -/
theorem c7_max_gain_loss_monotone_witness :
    example_record.max_gain = none ∧ example_record.max_loss = none ∧
    (opt_le (run_updates 3 [(5, 21/2)] example_record).max_gain
      (run_updates 3 ([(5, 21/2)] ++ [(15, 9)]) example_record).max_gain ∧
    opt_le_down (run_updates 3 ([(5, 21/2)] ++ [(15, 9)]) example_record).max_loss
      (run_updates 3 [(5, 21/2)] example_record).max_loss ∧
    (run_updates 3 ((5, 21/2) :: [(15, 9)]) example_record).max_gain =
      some (List.foldl max (calculate_change example_record.entry_price (21/2))
        ([((15 : ℕ), (9 : ℚ))].map fun o =>
          calculate_change example_record.entry_price o.2)) ∧
    (run_updates 3 ((5, 21/2) :: [(15, 9)]) example_record).max_loss =
      some (List.foldl min (calculate_change example_record.entry_price (21/2))
        ([((15 : ℕ), (9 : ℚ))].map fun o =>
          calculate_change example_record.entry_price o.2))) :=
  ⟨rfl, rfl, c7_max_gain_loss_monotone 3 example_record [(5, 21/2)] [(15, 9)]
    [(15, 9)] (5, 21/2) rfl rfl⟩

end Tracker

section Determinism

open PumpDetector

/-- Claim C8: the scoring engine is deterministic and idempotent.  The
embedding makes the clock an explicit argument and `analyze_coin` reads no
state besides its arguments (the `signals_history` attribute is written once
at construction and never consulted), so two calls on the identical snapshot
with the identical configuration yield the identical signal list, combined
score, confidence tier, and overall result. -/
theorem c8_scoring_deterministic (min_score now : ℚ) (d₁ d₂ : CoinData)
    (h : d₁ = d₂) :
    (analyze_coin min_score now d₁).map PumpSignal.signals =
      (analyze_coin min_score now d₂).map PumpSignal.signals ∧
    (analyze_coin min_score now d₁).map PumpSignal.score =
      (analyze_coin min_score now d₂).map PumpSignal.score ∧
    (analyze_coin min_score now d₁).map PumpSignal.confidence =
      (analyze_coin min_score now d₂).map PumpSignal.confidence ∧
    analyze_coin min_score now d₁ = analyze_coin min_score now d₂ := by
  subst h
  exact ⟨rfl, rfl, rfl, rfl⟩

/-- Witness for C8 at a concrete snapshot. -/
theorem c8_scoring_deterministic_witness :
    (analyze_coin 65 0 example_coin_data).map PumpSignal.signals =
      (analyze_coin 65 0 example_coin_data).map PumpSignal.signals ∧
    (analyze_coin 65 0 example_coin_data).map PumpSignal.score =
      (analyze_coin 65 0 example_coin_data).map PumpSignal.score ∧
    (analyze_coin 65 0 example_coin_data).map PumpSignal.confidence =
      (analyze_coin 65 0 example_coin_data).map PumpSignal.confidence ∧
    analyze_coin 65 0 example_coin_data = analyze_coin 65 0 example_coin_data :=
  c8_scoring_deterministic 65 0 example_coin_data example_coin_data rfl

end Determinism
